import Mathlib

/-!
# The `entv2` migration fixture: desired schema of `User`, `Car`, `Group`, `Pet`

A shallow embedding of `entc/integration/migrate/entv2/schema/user.go`.

The fixture is a set of declarations written in ent's schema-builder language
(`field.String("phone").Default("unknown")`, `edge.From("owner", User.Type).Ref("car")`,
`index.Fields("phone", "age").Unique()`).  The builder packages (`field`, `edge`,
`index`, `entsql`, `mixin`) are imported by the fixture, not declared in it; they are
embedded here as record descriptors with one setter per builder method, each setter
touching the one attribute its name says.  The declarations themselves (`Mixin.Fields`,
`User.Fields`, `User.Edges`, `User.Indexes`, `Car.Edges`, `Pet.Edges`) are transcribed
call by call, in source order.
-/

/-- Text values: names, storage keys, literals. -/
abbrev Str := String

/-! ## Package `entsql` -/

/-- Modelled from the spec: the builder's SQL attachment of a column, of which the fixture
sets only `Default`, the "database-generated expression" default of a Column Descriptor.
The empty text means no database-side default. -/
structure entsql.Annotation where
  Default : Str := ""
  deriving DecidableEq

/-- Modelled from the spec: the builder's SQL attachment of an index, the "optional
per-column key-prefix length" of an Index Descriptor. -/
structure entsql.IndexAnnotation where
  Prefix : Nat := 0
  deriving DecidableEq

/-- The call `entsql.Prefix(n)`: an index attachment with key-prefix length `n`. -/
def entsql.Prefix (n : Nat) : entsql.IndexAnnotation := { Prefix := n }

/-! ## Package `field` -/

/-- The primitive kinds the fixture uses. `field.Text` and `field.String` both build a
string column; they differ in the size. -/
inductive field.Type where
  | TypeInt
  | TypeString
  | TypeBytes
  | TypeEnum
  | TypeTime
  deriving DecidableEq

/-- A default value of a column as the fixture gives it: a literal
(`Default("unknown")`), a function returning bytes (`DefaultFunc(func() []byte ...)`),
or a function returning a time (`Default(time.Now)`). -/
inductive field.DefaultValue where
  | literal (v : Str)
  | bytesFunc (f : Unit → List Nat)
  | timeFunc (name : Str)

/-- A text literal passed to `Default` is a literal default value. -/
instance : Coe Str field.DefaultValue := ⟨field.DefaultValue.literal⟩

/-- The function value `time.Now`, passed to `Default` of a time column. -/
def time.Now : field.DefaultValue := .timeFunc "time.Now"

/-- Modelled from the spec: the Column Descriptor a field builder fills in: "logical
name, physical storage name (defaults to logical name; may differ), primitive kind,
nullability, default value, and optional length/precision constraints", an enumeration
having "an ordered value set".  `storageKey = none` means no storage key was declared;
`size = none` means no length was declared. -/
structure field.Descriptor where
  name : Str
  info : field.Type
  size : Option Nat := none
  unique : Bool := false
  optional : Bool := false
  defaultValue : Option field.DefaultValue := none
  storageKey : Option Str := none
  enums : List Str := []
  annotations : List entsql.Annotation := []

/-- The size `field.Text` gives a string column: `math.MaxInt32`. -/
def field.MaxInt32 : Nat := 2147483647

/-- Builder `field.Int(name)`. -/
def field.Int (name : Str) : field.Descriptor := { name := name, info := .TypeInt }

/-- Builder `field.String(name)`. -/
def field.String (name : Str) : field.Descriptor := { name := name, info := .TypeString }

/-- Builder `field.Text(name)`: a string column of unbounded size. -/
def field.Text (name : Str) : field.Descriptor :=
  { name := name, info := .TypeString, size := some field.MaxInt32 }

/-- Builder `field.Bytes(name)`. -/
def field.Bytes (name : Str) : field.Descriptor := { name := name, info := .TypeBytes }

/-- Builder `field.Enum(name)`. -/
def field.Enum (name : Str) : field.Descriptor := { name := name, info := .TypeEnum }

/-- Builder `field.Time(name)`. -/
def field.Time (name : Str) : field.Descriptor := { name := name, info := .TypeTime }

/-- Method `.StorageKey(key)`: pins the physical name of the column. -/
def field.Descriptor.StorageKey (d : field.Descriptor) (key : Str) : field.Descriptor :=
  { d with storageKey := some key }

/-- Method `.Optional()`: the column may be absent (nullable). -/
def field.Descriptor.Optional (d : field.Descriptor) : field.Descriptor :=
  { d with optional := true }

/-- Method `.Unique()`: a field-level unique flag. The fixture never calls it on a
field; it is here so that its absence shows. -/
def field.Descriptor.Unique (d : field.Descriptor) : field.Descriptor :=
  { d with unique := true }

/-- Method `.MaxLen(i)`: sets the size of a string or bytes column. -/
def field.Descriptor.MaxLen (d : field.Descriptor) (i : Nat) : field.Descriptor :=
  { d with size := some i }

/-- Method `.Default(v)`: a literal, or for a time column a function. -/
def field.Descriptor.Default (d : field.Descriptor) (v : field.DefaultValue) :
    field.Descriptor :=
  { d with defaultValue := some v }

/-- Method `.DefaultFunc(fn)` of a bytes column. -/
def field.Descriptor.DefaultFunc (d : field.Descriptor) (fn : Unit → List Nat) :
    field.Descriptor :=
  { d with defaultValue := some (.bytesFunc fn) }

/-- Method `.Values(v...)` of an enum column: appends to the ordered value set. -/
def field.Descriptor.Values (d : field.Descriptor) (vs : List Str) : field.Descriptor :=
  { d with enums := d.enums ++ vs }

/-- Method `.Annotations(a...)`: appends the attachments. -/
def field.Descriptor.Annotations (d : field.Descriptor) (as : List entsql.Annotation) :
    field.Descriptor :=
  { d with annotations := d.annotations ++ as }

/-- The physical storage name of a column: the storage key when one is set, otherwise
the logical name. -/
def field.Descriptor.physicalName (d : field.Descriptor) : Str :=
  match d.storageKey with
  | some key => key
  | none => d.name

/-- The database-side default expression of a column, if an attachment declares one. -/
def field.Descriptor.sqlDefault (d : field.Descriptor) : Option Str :=
  (d.annotations.find? (fun a => a.Default != "")).map (fun a => a.Default)

/-- A column has a default when it carries a literal or a default function, or when
an attachment gives a database-side default expression. -/
def field.Descriptor.hasDefault (d : field.Descriptor) : Bool :=
  d.defaultValue.isSome || d.sqlDefault.isSome

/-- The literal default of a column, when its default is a literal. -/
def field.Descriptor.literalDefault (d : field.Descriptor) : Option Str :=
  match d.defaultValue with
  | some (.literal v) => some v
  | _ => none

/-- The bytes of the text, as the conversion `[]byte("...")` gives them (the fixture
converts ASCII text only). -/
def bytesOf (s : Str) : List Nat := s.toList.map Char.toNat

/-! ## Package `edge` -/

/-- Modelled from the spec: where an edge is stored, as the builder's `StorageKey`
options set it: join table, column names, constraint symbols. -/
structure edge.StorageKey where
  Table : Str := ""
  Symbols : List Str := []
  Columns : List Str := []
  deriving DecidableEq

/-- An option of `StorageKey(...)`: an update of the storage key. -/
abbrev edge.StorageOption := edge.StorageKey → edge.StorageKey

/-- Option `edge.Table(name)`. -/
def edge.Table (name : Str) : edge.StorageOption := fun k => { k with Table := name }

/-- Option `edge.Symbol(symbol)`. -/
def edge.Symbol (symbol : Str) : edge.StorageOption := fun k => { k with Symbols := [symbol] }

/-- Option `edge.Symbols(to, from)`. -/
def edge.Symbols (t f : Str) : edge.StorageOption :=
  fun k => { k with Symbols := [t, f] }

/-- Option `edge.Column(name)`. -/
def edge.Column (name : Str) : edge.StorageOption := fun k => { k with Columns := [name] }

/-- Option `edge.Columns(to, from)`. -/
def edge.Columns (t f : Str) : edge.StorageOption :=
  fun k => { k with Columns := [t, f] }

/-- Modelled from the spec: the edge a builder fills in, the source of a Foreign Key
Descriptor: "referenced table", "uniqueness (one-to-one vs one-to-many), required flag
(nullable FK vs NOT NULL FK)".  `inverse` tells `edge.From` from `edge.To`; `refName`
is the `Ref` of an inverse edge. -/
structure edge.Descriptor where
  name : Str
  type : Str
  inverse : Bool := false
  refName : Str := ""
  unique : Bool := false
  required : Bool := false
  storageKey : Option edge.StorageKey := none
  deriving DecidableEq

/-- Builder `edge.To(name, T.Type)`: a forward edge to type `T`. -/
def edge.To (name : Str) (t : Str) : edge.Descriptor := { name := name, type := t }

/-- Builder `edge.From(name, T.Type)`: an inverse edge, whose forward edge is on `T`. -/
def edge.From (name : Str) (t : Str) : edge.Descriptor :=
  { name := name, type := t, inverse := true }

/-- Method `.Ref(ref)`: names the forward edge this one is the inverse of. -/
def edge.Descriptor.Ref (e : edge.Descriptor) (ref : Str) : edge.Descriptor :=
  { e with refName := ref }

/-- Method `.Unique()`. -/
def edge.Descriptor.Unique (e : edge.Descriptor) : edge.Descriptor :=
  { e with unique := true }

/-- Method `.Required()`. -/
def edge.Descriptor.Required (e : edge.Descriptor) : edge.Descriptor :=
  { e with required := true }

/-- Method `.StorageKey(opts...)`: applies the options, in order, to the edge's storage
key (an empty one when none was set before). -/
def edge.Descriptor.StorageKey (e : edge.Descriptor) (opts : List edge.StorageOption) :
    edge.Descriptor :=
  { e with storageKey := some (opts.foldl (fun k o => o k) (e.storageKey.getD {})) }

/-! ## Package `index` -/

/-- Modelled from the spec: the Index Descriptor: "ordered list of column references,
uniqueness flag, optional per-column key-prefix length". -/
structure index.Descriptor where
  fields : List Str
  unique : Bool := false
  annotations : List entsql.IndexAnnotation := []
  deriving DecidableEq

/-- Builder `index.Fields(names...)`. -/
def index.Fields (names : List Str) : index.Descriptor := { fields := names }

/-- Method `.Unique()`. -/
def index.Descriptor.Unique (i : index.Descriptor) : index.Descriptor :=
  { i with unique := true }

/-- Method `.Annotations(a...)`. -/
def index.Descriptor.Annotations (i : index.Descriptor)
    (as : List entsql.IndexAnnotation) : index.Descriptor :=
  { i with annotations := i.annotations ++ as }

/-! ## Package `ent`: what a schema type declares -/

/-- What a mixin declares. A type embedding `mixin.Schema` declares no field unless it
defines `Fields` itself. -/
structure ent.Mixin where
  Fields : List field.Descriptor := []

/-- What a schema type declares. A type embedding `ent.Schema` declares no mixin,
field, edge or index unless it defines the method itself. -/
structure ent.Interface where
  typ : Str
  Mixin : List ent.Mixin := []
  Fields : List field.Descriptor := []
  Edges : List edge.Descriptor := []
  Indexes : List index.Descriptor := []

/-! ## The fixture -/

/-- Source `func (m Mixin) Fields() []ent.Field`. -/
def Mixin.Fields : List field.Descriptor :=
  [ (field.String "mixed_string").Default "default",
    ((field.Enum "mixed_enum").Values ["on", "off"]).Default "on" ]

/-- The value `Mixin{}`. -/
def Mixin.value : ent.Mixin := { Fields := Mixin.Fields }

/-- The type names `User.Type`, `Car.Type`, `Group.Type`, `Pet.Type` stand for. -/
def User.Type : Str := "User"

/-- The name of type `Car`. -/
def Car.Type : Str := "Car"

/-- The name of type `Group`. -/
def Group.Type : Str := "Group"

/-- The name of type `Pet`. -/
def Pet.Type : Str := "Pet"

/-- Source `func (User) Mixin() []ent.Mixin`. -/
def User.Mixin : List ent.Mixin := [Mixin.value]

/-- Source `func (User) Fields() []ent.Field`, one entry per builder chain, in order. -/
def User.Fields : List field.Descriptor :=
  [ (field.Int "id").StorageKey "oid",
    field.Int "age",
    field.Text "name",
    (field.Text "description").Optional,
    (field.String "nickname").MaxLen 255,
    (field.String "phone").Default "unknown",
    ((field.Bytes "buffer").Optional).DefaultFunc (fun _ => bytesOf "null"),
    (field.String "title").Default "SWE",
    ((field.String "new_name").Optional).StorageKey "renamed",
    ((field.Bytes "blob").Optional).MaxLen 1000,
    ((field.Enum "state").Optional).Values ["logged_in", "logged_out", "online"],
    ((field.Enum "status").Optional).Values ["done", "pending"],
    (field.String "workplace").Optional,
    ((field.Time "created_at").Default time.Now).Annotations
      [{ Default := "CURRENT_TIMESTAMP" }] ]

/-- Source `func (User) Edges() []ent.Edge`. -/
def User.Edges : List edge.Descriptor :=
  [ edge.To "car" Car.Type,
    ((edge.To "pets" Pet.Type).StorageKey
      [edge.Column "owner_id", edge.Symbol "user_pet_id"]).Unique,
    (edge.To "friends" User.Type).StorageKey
      [edge.Table "friends", edge.Columns "user" "friend",
       edge.Symbols "user_friend_id1" "user_friend_id2"] ]

/-- Source `func (User) Indexes() []ent.Index`. -/
def User.Indexes : List index.Descriptor :=
  [ (index.Fields ["description"]).Annotations [entsql.Prefix 100],
    (index.Fields ["phone", "age"]).Unique ]

/-- Source `func (Car) Edges() []ent.Edge`. -/
def Car.Edges : List edge.Descriptor :=
  [ (((edge.From "owner" User.Type).Ref "car").Unique).Required ]

/-- Source `func (Pet) Edges() []ent.Edge`. -/
def Pet.Edges : List edge.Descriptor :=
  [ ((edge.From "owner" User.Type).Ref "pets").Unique ]

/-- Type `User`: mixin, fields, edges and indexes. -/
def User.schema : ent.Interface :=
  { typ := User.Type, Mixin := User.Mixin, Fields := User.Fields,
    Edges := User.Edges, Indexes := User.Indexes }

/-- Type `Car`: edges only. -/
def Car.schema : ent.Interface := { typ := Car.Type, Edges := Car.Edges }

/-- Type `Group`: `struct{ ent.Schema }`, nothing declared. -/
def Group.schema : ent.Interface := { typ := Group.Type }

/-- Type `Pet`: edges only. -/
def Pet.schema : ent.Interface := { typ := Pet.Type, Edges := Pet.Edges }

/-- The schema types the file declares, in source order. -/
def schemas : List ent.Interface := [User.schema, Car.schema, Group.schema, Pet.schema]

/-! ## From declarations to a flat table -/

/-- Modelled from the spec: one step of descriptor composition, "later-declared fields
taking precedence on name collision": a field whose logical name is already present
replaces the earlier one, any other field is added at the end. -/
def mergeField (acc : List field.Descriptor) (f : field.Descriptor) :
    List field.Descriptor :=
  if acc.any (fun g => g.name == f.name) then
    acc.map (fun g => if g.name == f.name then f else g)
  else acc ++ [f]

/-- Modelled from the spec: "a reusable Column Descriptor group merged into a Table
Descriptor at construction time": the fields declared later are merged, one by one,
into those declared before. -/
def mergeFields (base later : List field.Descriptor) : List field.Descriptor :=
  later.foldl mergeField base

/-- The fields the mixins of a schema type contribute, in mixin order. -/
def ent.Interface.mixinFields (s : ent.Interface) : List field.Descriptor :=
  (s.Mixin.map (fun m => m.Fields)).flatten

/-- The flat column list of a schema type: the fields of its mixins followed by its
own fields. -/
def ent.Interface.columns (s : ent.Interface) : List field.Descriptor :=
  s.mixinFields ++ s.Fields

/-- The column list of a schema type as descriptor composition builds it: its own
fields merged into the fields of its mixins. -/
def ent.Interface.mergedColumns (s : ent.Interface) : List field.Descriptor :=
  mergeFields s.mixinFields s.Fields

/-- The column with the given logical name, the first one if several. -/
def findField (cols : List field.Descriptor) (name : Str) : Option field.Descriptor :=
  cols.find? (fun d => d.name == name)

/-- The edge with the given name, the first one if several. -/
def findEdge (es : List edge.Descriptor) (name : Str) : Option edge.Descriptor :=
  es.find? (fun e => e.name == name)

/-- An index covers a column when the column is in its column list. -/
def index.Descriptor.covers (i : index.Descriptor) (col : Str) : Bool :=
  i.fields.contains col

/-- The columns the fixture's comments mark as added by this version of `User`
("adding new columns", "adding new column with supported default value", "add a new
column with generated values by the database"). -/
def User.addedNames : List Str := ["phone", "buffer", "title", "created_at"]

/-- The newly added columns of the `User` table: both mixin fields, and the fields of
`User.Fields` whose name is marked as added. -/
def User.addedColumns : List field.Descriptor :=
  Mixin.Fields ++ User.Fields.filter (fun d => User.addedNames.contains d.name)

/-- The enumeration columns of a column list. -/
def enumColumns (cols : List field.Descriptor) : List field.Descriptor :=
  cols.filter (fun d => d.info == field.Type.TypeEnum)

/-- The inverse edges of the file, each with the name of the type declaring it. -/
def inverseEdges : List (Str × edge.Descriptor) :=
  (schemas.map (fun s => (s.Edges.filter (fun e => e.inverse)).map (fun e => (s.typ, e)))).flatten

/-! ## Theorems -/

/-- C1, as stated, fails: `User.Fields` has no `phone` column that is at once a string
column, optional, and defaulted to the literal "unknown". -/
theorem C1_phone_not_optional :
    ¬ ∃ d, findField User.Fields "phone" = some d ∧ d.info = field.Type.TypeString ∧
      d.optional = true ∧ d.literalDefault = some "unknown" := by
  rintro ⟨d, hd, -, ho, -⟩
  have h : findField User.Fields "phone" = some ((field.String "phone").Default "unknown") := by
    rfl
  rw [h] at hd
  cases hd
  exact absurd ho (by decide)

/-- C1, amended: `User.Fields` declares exactly one `phone` column; it is a string
column, it is not optional (no `Optional()` in its chain), and its default value is the
literal "unknown", so it has a default. -/
theorem C1_phone_string_default_unknown :
    (User.Fields.filter (fun d => d.name == "phone")).length = 1 ∧
    ∃ d, findField User.Fields "phone" = some d ∧ d.info = field.Type.TypeString ∧
      d.optional = false ∧ d.literalDefault = some "unknown" ∧ d.hasDefault = true :=
  ⟨by decide, (field.String "phone").Default "unknown", rfl, rfl, rfl, rfl, rfl⟩

/-- C2: among the columns of the `User` table (mixin fields, then `User.Fields`), the
columns with physical name "renamed" are exactly one, the column with logical name
`new_name`; its physical name differs from its logical name; and every column without
a storage key has its logical name as physical name. -/
theorem C2_renamed_is_new_name :
    User.schema.columns = Mixin.Fields ++ User.Fields ∧
    (User.schema.columns.filter (fun d => d.physicalName == "renamed")).map (fun d => d.name)
      = ["new_name"] ∧
    (∃ d, findField User.schema.columns "new_name" = some d ∧
      d.storageKey = some "renamed" ∧ d.physicalName = "renamed" ∧ d.physicalName ≠ d.name) ∧
    (∀ d ∈ User.schema.columns, d.storageKey = none → d.physicalName = d.name) ∧
    (User.schema.columns.filter (fun d => d.storageKey.isSome)).map
      (fun d => (d.name, d.physicalName)) = [("id", "oid"), ("new_name", "renamed")] := by
  refine ⟨rfl, by decide, ⟨((field.String "new_name").Optional).StorageKey "renamed",
    rfl, rfl, rfl, by decide⟩, ?_, by decide⟩
  intro d _ h
  simp [field.Descriptor.physicalName, h]

/-- C3: merging `User.Fields` into `Mixin.Fields` replaces nothing: the result is
`Mixin.Fields` followed by `User.Fields`, the flat column list of the `User` table; it
has 16 columns; their logical names are
pairwise distinct and their physical names are pairwise distinct; no mixin field has the
logical or physical name of a field of `User`. -/
theorem C3_columns_distinct :
    User.schema.mergedColumns = Mixin.Fields ++ User.Fields ∧
    User.schema.columns = Mixin.Fields ++ User.Fields ∧
    User.schema.columns.length = 16 ∧
    (User.schema.columns.map (fun d => d.name)).Nodup ∧
    (User.schema.columns.map (fun d => d.physicalName)).Nodup ∧
    (∀ m ∈ Mixin.Fields, ∀ u ∈ User.Fields,
      m.name ≠ u.name ∧ m.physicalName ≠ u.physicalName) :=
  ⟨rfl, rfl, by decide, by decide, by decide, by decide⟩

/-- C4: the `nickname` column carries no field-level unique flag, no index of
`User.Indexes` covers `nickname`, and `User.Indexes` contains an index whose ordered
column list is exactly [phone, age] and whose uniqueness flag is true. -/
theorem C4_nickname_not_unique_phone_age_unique :
    (∃ d, findField User.schema.columns "nickname" = some d ∧ d.unique = false) ∧
    (User.schema.columns.filter (fun d => d.name == "nickname")).length = 1 ∧
    (∀ i ∈ User.Indexes, "nickname" ∉ i.fields) ∧
    (∃ i ∈ User.Indexes, i.fields = ["phone", "age"] ∧ i.unique = true) := by
  refine ⟨⟨(field.String "nickname").MaxLen 255, rfl, rfl⟩, by decide, by decide, by decide⟩

/-- C5: the newly added columns are the two mixin fields and `phone`, `buffer`, `title`,
`created_at`; each of them is optional or has a default value (a literal, a default
function, or a database-side default expression); none is non-optional without a
default. -/
theorem C5_added_columns_optional_or_default :
    User.addedColumns.map (fun d => d.name) =
      ["mixed_string", "mixed_enum", "phone", "buffer", "title", "created_at"] ∧
    (∀ d ∈ User.addedColumns, d.optional = true ∨ d.hasDefault = true) ∧
    (∀ d ∈ User.addedColumns, ¬ (d.optional = false ∧ d.hasDefault = false)) :=
  ⟨by decide, by decide, by decide⟩

/-- C6: every index of `User.Indexes` has a non-empty column list, and every column it
references is the logical name of a column of the `User` table. -/
theorem C6_indexes_reference_known_columns :
    User.Indexes.length = 2 ∧
    ∀ i ∈ User.Indexes, i.fields ≠ [] ∧
      ∀ c ∈ i.fields, c ∈ User.schema.columns.map (fun d => d.name) :=
  ⟨by decide, by decide⟩

/-- C7: the `owner` edge of `Car` is an inverse edge to `User` with `Ref` "car", it is
unique and required; the `car` edge of `User` is a forward edge to `Car` and is not
unique. -/
theorem C7_car_owner_many_to_one_required :
    (∃ e, findEdge Car.Edges "owner" = some e ∧ e.inverse = true ∧ e.type = User.Type ∧
      e.refName = "car" ∧ e.unique = true ∧ e.required = true) ∧
    (∃ f, findEdge User.Edges "car" = some f ∧ f.inverse = false ∧ f.type = Car.Type ∧
      f.unique = false) ∧
    (Car.Edges.filter (fun e => e.name == "owner")).length = 1 ∧
    (User.Edges.filter (fun e => e.name == "car")).length = 1 := by
  decide

/-- C8: no column of the `User` table has logical or physical name `address`, no index
of `User.Indexes` references `name` or `address`, and no edge of `User.Edges` is named
`children`, `parent` or `spouse`. -/
theorem C8_dropped_things_absent :
    (∀ d ∈ User.schema.columns, d.name ≠ "address" ∧ d.physicalName ≠ "address") ∧
    (∀ i ∈ User.Indexes, "name" ∉ i.fields ∧ "address" ∉ i.fields) ∧
    (∀ e ∈ User.Edges, e.name ≠ "children" ∧ e.name ≠ "parent" ∧ e.name ≠ "spouse") :=
  ⟨by decide, by decide, by decide⟩

/-- C9: the inverse edges of the file are `Car.owner` and `Pet.owner`; for every inverse
edge declared on a type S with target T and `Ref` r, T is a declared schema type with a
forward edge named r whose target is S; and every edge of `User.Edges` is a forward edge
whose target (Car, Pet, User) is a declared schema type. -/
theorem C9_edges_resolve :
    inverseEdges.map (fun p => (p.1, p.2.name, p.2.type, p.2.refName)) =
      [("Car", "owner", "User", "car"), ("Pet", "owner", "User", "pets")] ∧
    (∀ s ∈ schemas, ∀ e ∈ s.Edges, e.inverse = true →
      ∃ t ∈ schemas, t.typ = e.type ∧
        ∃ f ∈ t.Edges, f.inverse = false ∧ f.name = e.refName ∧ f.type = s.typ) ∧
    User.Edges.map (fun e => e.type) = ["Car", "Pet", "User"] ∧
    (∀ e ∈ User.Edges, e.inverse = false ∧ e.type ∈ schemas.map (fun s => s.typ)) :=
  ⟨by decide, by decide, by decide, by decide⟩

/-- C10: the enumeration columns of the `User` table are `mixed_enum`, `state` and
`status`; each has a non-empty value set with pairwise distinct values; each one that
declares a default has a literal default that is a member of its value set; and
`mixed_enum` is the one declaring a default, "on". -/
theorem C10_enum_values_distinct_default_member :
    (enumColumns User.schema.columns).map (fun d => d.name) =
      ["mixed_enum", "state", "status"] ∧
    (∀ d ∈ enumColumns User.schema.columns, d.enums ≠ [] ∧ d.enums.Nodup) ∧
    (∀ d ∈ enumColumns User.schema.columns, d.defaultValue.isSome = true →
      ∃ v ∈ d.enums, d.literalDefault = some v) ∧
    (enumColumns User.schema.columns).map (fun d => (d.name, d.enums, d.literalDefault)) =
      [("mixed_enum", ["on", "off"], some "on"),
       ("state", ["logged_in", "logged_out", "online"], none),
       ("status", ["done", "pending"], none)] ∧
    ((enumColumns User.schema.columns).filter (fun d => d.defaultValue.isSome)).map
      (fun d => d.name) = ["mixed_enum"] :=
  ⟨by decide, by decide, by decide, by decide, by decide⟩
